import Mathlib

/-!
Verification of the consensus-core claims of the espresso-sequencer repository
against a shallow embedding of its Rust source.

The embedding follows the source files under hotshot-task-impls (the
quorum-proposal, quorum-proposal-recv and quorum-vote tasks), the
randomized-committee election module and the stake-table membership
implementation.  Cryptographic primitives, the stake-table oracles and the
helper validators that live outside the provided sources are represented as
explicit oracle fields of environment records; every control-flow decision is
translated from the Rust source.  Definitions whose Rust source is not part of
the provided tree are marked as modelled from the specification.
-/

namespace Spec2Proof

/-- Word size of the u64 arithmetic used throughout the Rust source. -/
def U64SIZE : Nat := 2 ^ 64

/-! ## Epoch landmark utilities

Modelled from the spec: the functions epoch_from_block_number, is_last_block,
is_last_block_in_epoch, is_epoch_root, is_transition_block and
is_epoch_transition live in hotshot-types/src/utils.rs, which is not part of
the provided sources.  The spec fixes: the last block of an epoch is the block
whose number is divisible by epoch_height; the epoch root is the block that
determines the next stake table and whose DRB is decided in the next epoch at
height root + epoch_height + 3 (types/src/v0/impls/stake_table.rs), hence the
root sits three blocks before the epoch end; the transition block is the block
right after the epoch root, and the epoch transition window consists of the
blocks after the epoch root up to and including the epoch end. -/

/-- Modelled from the spec: epoch number of a block, (block_number - 1) / epoch_height
for positive block numbers, with degenerate inputs mapped to zero. -/
def epochFromBlockNumber (blockNumber epochHeight : Nat) : Nat :=
  if epochHeight == 0 then 0
  else if blockNumber == 0 then 0
  else (blockNumber - 1) / epochHeight

/-- Modelled from the spec: the final block of an epoch. -/
def isLastBlock (blockNumber epochHeight : Nat) : Bool :=
  blockNumber != 0 && epochHeight != 0 && blockNumber % epochHeight == 0

/-- Modelled from the spec: same predicate under the name used by the vote path. -/
def isLastBlockInEpoch (blockNumber epochHeight : Nat) : Bool :=
  isLastBlock blockNumber epochHeight

/-- Modelled from the spec: the epoch root, three blocks before the epoch end. -/
def isEpochRoot (blockNumber epochHeight : Nat) : Bool :=
  blockNumber != 0 && epochHeight != 0 && (blockNumber + 3) % epochHeight == 0

/-- Modelled from the spec: the transition block, the block right after the epoch root. -/
def isTransitionBlock (blockNumber epochHeight : Nat) : Bool :=
  blockNumber != 0 && epochHeight != 0 && (blockNumber + 2) % epochHeight == 0

/-- Modelled from the spec: the epoch transition window, every block strictly after
the epoch root up to and including the last block of the epoch. -/
def isEpochTransition (blockNumber epochHeight : Nat) : Bool :=
  isTransitionBlock blockNumber epochHeight ||
  (blockNumber != 0 && epochHeight != 0 && (blockNumber + 1) % epochHeight == 0) ||
  isLastBlock blockNumber epochHeight

/-- Modelled from the spec: optional epoch derived from a block number, present
exactly when epochs are in effect. -/
def optionEpochFromBlockNumber (withEpoch : Bool) (blockNumber epochHeight : Nat) :
    Option Nat :=
  if withEpoch then some (epochFromBlockNumber blockNumber epochHeight) else none

/-! ## Core data structures (hotshot-types, shapes as used by the task sources) -/

/-- Payload of a quorum certificate: leaf commitment, optional epoch and optional
block number, as read by the task handlers. -/
structure QcData where
  leafCommit : Nat
  epoch : Option Nat
  blockNumber : Option Nat
deriving Repr, DecidableEq

/-- Quorum certificate: payload plus the view it certifies. -/
structure QuorumCertificate where
  data : QcData
  viewNumber : Nat
deriving Repr, DecidableEq

/-- Light-client state update certificate: the epoch it certifies and the block
height of its light-client state. -/
structure LightClientStateCert where
  epoch : Nat
  blockHeight : Nat
deriving Repr, DecidableEq

/-- Block header fields read by the consensus tasks: block number, builder
commitment and metadata (the latter two as opaque scalars). -/
structure BlockHeader where
  blockNumber : Nat
  builderCommitment : Nat
  metadata : Nat
deriving Repr, DecidableEq

/-- Quorum proposal wrapper: the fields of QuorumProposal2 consumed by the
receive and vote pipelines. -/
structure QuorumProposal where
  viewNumber : Nat
  epoch : Option Nat
  blockHeader : BlockHeader
  justifyQc : QuorumCertificate
  nextEpochJustifyQc : Option QuorumCertificate
  stateCert : Option LightClientStateCert
  nextDrbResult : Option Nat
deriving Repr, DecidableEq

/-- Modelled from the spec: check_qc_state_cert_correspondence
(hotshot-task-impls/src/helpers.rs, not in the provided sources).  A state cert
corresponds to a QC when it certifies the block of the QC and the epoch of that
block. -/
def checkQcStateCertCorrespondence (qc : QuorumCertificate)
    (cert : LightClientStateCert) (epochHeight : Nat) : Bool :=
  qc.data.blockNumber == some cert.blockHeight &&
  cert.epoch == epochFromBlockNumber cert.blockHeight epochHeight

/-- Test whether the block certified by a QC is an epoch root. -/
def qcIsEpochRoot (qc : QuorumCertificate) (epochHeight : Nat) : Bool :=
  match qc.data.blockNumber with
  | some bn => isEpochRoot bn epochHeight
  | none => false

/-- Association-list lookup used for the various keyed maps of the consensus state. -/
def lookupNat (m : List (Nat × Nat)) (k : Nat) : Option Nat :=
  match m with
  | [] => none
  | (a, b) :: rest => if a == k then some b else lookupNat rest k

/-! ## Membership thresholds

Source: hotshot/src/traits/election/randomized_committee.rs (U256 results) and
types/src/v0/impls/stake_table.rs (NonZeroU64 results).  Both compute from the
stake-table length n, cast to u64; the u64 products are modelled with an
explicit reduction modulo 2^64. -/

/-- Success threshold of the randomized committee: ((n as u64 * 2) / 3) + 1. -/
def rcSuccessThreshold (n : Nat) : Nat :=
  (n % U64SIZE * 2 % U64SIZE) / 3 + 1

/-- Failure threshold of the randomized committee: ((n as u64) / 3) + 1. -/
def rcFailureThreshold (n : Nat) : Nat :=
  (n % U64SIZE) / 3 + 1

/-- Upgrade threshold of the randomized committee:
max((n as u64 * 9) / 10, ((n as u64 * 2) / 3) + 1). -/
def rcUpgradeThreshold (n : Nat) : Nat :=
  max ((n % U64SIZE * 9 % U64SIZE) / 10) ((n % U64SIZE * 2 % U64SIZE) / 3 + 1)

/-- Success threshold of the stake-table membership: ((quorum_len as u64 * 2) / 3) + 1. -/
def stSuccessThreshold (n : Nat) : Nat :=
  (n % U64SIZE * 2 % U64SIZE) / 3 + 1

/-- Failure threshold of the stake-table membership: ((quorum_len as u64) / 3) + 1. -/
def stFailureThreshold (n : Nat) : Nat :=
  (n % U64SIZE) / 3 + 1

/-- Upgrade threshold of the stake-table membership:
max((quorum_len as u64 * 9) / 10, ((quorum_len as u64 * 2) / 3) + 1). -/
def stUpgradeThreshold (n : Nat) : Nat :=
  max ((n % U64SIZE * 9 % U64SIZE) / 10) ((n % U64SIZE * 2 % U64SIZE) / 3 + 1)

/-! ## Proposal task: per-view dependency handles and cancellation

Source: hotshot-task-impls/src/quorum_proposal/mod.rs.  The dependency map is
keyed by view; a handle is represented by its (view, task id) pair. -/

/-- Cancel all proposal dependency handles with a view strictly below the given
view: split_off keeps the handles at or above the view, the rest are aborted.
Returns (kept handles, aborted handles). -/
def cancelTasks (view : Nat) (deps : List (Nat × Nat)) :
    List (Nat × Nat) × List (Nat × Nat) :=
  (deps.filter (fun t => view ≤ t.1), deps.filter (fun t => t.1 < view))

/-- ViewChange branch of QuorumProposalTaskState::handle: the kept view is the
event view saturating-minus one, and cancel_tasks is invoked with it. -/
def handleProposalViewChange (view : Nat) (deps : List (Nat × Nat)) :
    List (Nat × Nat) × List (Nat × Nat) :=
  cancelTasks (view - 1) deps

/-! ## Proposal-receive pipeline

Source: hotshot-task-impls/src/quorum_proposal_recv/handlers.rs.  Helper
validators that live in hotshot-task-impls/src/helpers.rs (not in the provided
sources) and the cryptographic and upgrade-lock queries are oracle fields of
RecvEnv; the control flow is translated from the source. -/

/-- Environment of the receive pipeline: oracle outcomes of the helper
validators, the upgrade lock, the commitment and state hashes, and the
configured epoch height and empty-payload constants. -/
structure RecvEnv where
  epochsEnabled : Nat → Bool
  upgradeView : Nat
  validateEpochOk : Bool
  viewAndCertsOk : Bool
  lightClientCertOk : LightClientStateCert → Bool
  qcAndNextQcOk : QuorumCertificate → Option QuorumCertificate → Bool
  safetyAndLivenessOk : Bool
  updateHighQcOk : Bool
  epochTransitionQcOk : Bool
  leafCommit : QuorumProposal → Nat
  stateFromHeader : BlockHeader → Nat
  emptyBuilderCommitment : Nat
  emptyMetadata : Nat
  epochHeight : Nat

/-- Shared consensus state, restricted to the fields touched by the receive
pipeline.  Leaves are stored keyed by leaf commitment and validated states
keyed by view, both as association lists with the newest entry in front. -/
structure ConsensusState where
  highQc : QuorumCertificate
  lockedView : Nat
  savedLeaves : List (Nat × QuorumProposal)
  validatedStateMap : List (Nat × Nat)
  consensusStateCert : Option LightClientStateCert
  highestBlock : Nat
deriving Repr, DecidableEq

/-- Lookup of a saved leaf by its commitment. -/
def lookupLeaf (m : List (Nat × QuorumProposal)) (k : Nat) : Option QuorumProposal :=
  match m with
  | [] => none
  | (a, b) :: rest => if a == k then some b else lookupLeaf rest k

/-- Modelled from the spec: Consensus::update_leaf (hotshot-types consensus.rs,
not in the provided sources) inserts the leaf into the saved-leaves map keyed
by its commitment and the header-derived state into the validated-state map
keyed by the view. -/
def updateLeaf (env : RecvEnv) (st : ConsensusState) (p : QuorumProposal)
    (state : Nat) : ConsensusState :=
  { st with
    savedLeaves := (env.leafCommit p, p) :: st.savedLeaves
    validatedStateMap := (p.viewNumber, state) :: st.validatedStateMap }

/-- Current-epoch validation (validate_current_epoch): skipped before the epoch
upgrade, otherwise the epoch of the proposed block must not precede the epoch
of the block after the high QC. -/
def validateCurrentEpoch (env : RecvEnv) (st : ConsensusState)
    (p : QuorumProposal) : Except String Unit :=
  if !env.epochsEnabled p.viewNumber || p.justifyQc.viewNumber ≤ env.upgradeView then
    .ok ()
  else
    match st.highQc.data.blockNumber with
    | none => .error "High QC has no block number"
    | some highBn =>
      if epochFromBlockNumber ((highBn + 1) % U64SIZE) env.epochHeight ≤
          epochFromBlockNumber p.blockHeader.blockNumber env.epochHeight then
        .ok ()
      else .error "Quorum proposal has an inconsistent epoch"

/-- Block-height validation (validate_block_height): with no block number on
the justify QC the check passes; otherwise the proposed header must sit one
above the certified block. -/
def validateBlockHeight (p : QuorumProposal) : Except String Unit :=
  match p.justifyQc.data.blockNumber with
  | none => .ok ()
  | some qcBn =>
    if (qcBn + 1) % U64SIZE == p.blockHeader.blockNumber then .ok ()
    else .error "Quorum proposal has an inconsistent block height"

/-- Epoch-root state-cert validation of handle_quorum_proposal_recv: when the
justify QC certifies an epoch root, a state cert must be attached, correspond
to the QC and pass light-client verification. -/
def validateEpochRootStateCert (env : RecvEnv) (p : QuorumProposal) :
    Except String Unit :=
  match p.justifyQc.data.blockNumber with
  | none => .ok ()
  | some bn =>
    if isEpochRoot bn env.epochHeight then
      match p.stateCert with
      | none => .error "Epoch root QC has no state cert"
      | some cert =>
        if !checkQcStateCertCorrespondence p.justifyQc cert env.epochHeight then
          .error "Epoch root QC has no corresponding state cert"
        else if !env.lightClientCertOk cert then
          .error "Invalid light client state update certificate"
        else .ok ()
    else .ok ()

/-- Epoch-transition block validation (validate_epoch_transition_block): inside
the transition window every block except the transition block itself must carry
the empty builder commitment and metadata. -/
def validateEpochTransitionBlock (env : RecvEnv) (p : QuorumProposal) :
    Except String Unit :=
  if !env.epochsEnabled p.viewNumber then .ok ()
  else if !isEpochTransition p.blockHeader.blockNumber env.epochHeight then .ok ()
  else if isTransitionBlock p.blockHeader.blockNumber env.epochHeight then .ok ()
  else if env.emptyBuilderCommitment == p.blockHeader.builderCommitment &&
      env.emptyMetadata == p.blockHeader.metadata then .ok ()
  else .error "Block is not empty"

/-- Sequencing of two fallible checks, mirroring the question-mark operator. -/
def exceptSeq (a b : Except String Unit) : Except String Unit :=
  match a with
  | .error e => .error e
  | .ok () => b

/-- Checks performed by handle_quorum_proposal_recv before the
QuorumProposalPreliminarilyValidated broadcast, in source order. -/
def recvPrelimChecks (env : RecvEnv) (st : ConsensusState) (p : QuorumProposal) :
    Except String Unit :=
  exceptSeq (if env.validateEpochOk then .ok () else .error "Invalid proposal epoch")
    (exceptSeq (validateCurrentEpoch env st p)
      (exceptSeq (if env.viewAndCertsOk then .ok ()
          else .error "Failed to validate proposal view or attached certs")
        (exceptSeq (validateBlockHeight p)
          (exceptSeq (validateEpochRootStateCert env p)
            (exceptSeq (validateEpochTransitionBlock env p)
              (if env.qcAndNextQcOk p.justifyQc p.nextEpochJustifyQc then .ok ()
               else .error "Invalid justify QC or next-epoch justify QC"))))))

/-- Distinguished failure modes of validate_proposal_liveness. -/
inductive LivenessError where
  | noBlockNumber
  | epochTransitionQcFailed
  | livenessFailed
deriving Repr, DecidableEq

/-- Liveness validation for a proposal whose parent is missing
(validate_proposal_liveness).  The proposed leaf and its header-derived state
are written into the shared maps before the liveness check is evaluated; the
function fails afterwards when the justify QC does not exceed the locked view
and the proposal is not a valid epoch transition. -/
def validateProposalLiveness (env : RecvEnv) (st : ConsensusState)
    (p : QuorumProposal) : ConsensusState × Except LivenessError Unit :=
  let epochsOn := env.epochsEnabled p.viewNumber
  if epochsOn && p.justifyQc.data.blockNumber == none then
    (st, .error .noBlockNumber)
  else
    let validEpochTransition := epochsOn &&
      (match p.justifyQc.data.blockNumber with
       | some bn => isEpochTransition bn env.epochHeight
       | none => false)
    if validEpochTransition && !env.epochTransitionQcOk then
      (st, .error .epochTransitionQcFailed)
    else
      let st1 := updateLeaf env st p (env.stateFromHeader p.blockHeader)
      let livenessCheck := st1.lockedView < p.justifyQc.viewNumber
      let st2 := { st1 with lockedView :=
        if livenessCheck && epochsOn then p.justifyQc.viewNumber else st1.lockedView }
      (st2,
        if !livenessCheck && !validEpochTransition then .error .livenessFailed
        else .ok ())

/-- Events broadcast by the receive pipeline. -/
inductive RecvEvent where
  | prelimValidated (p : QuorumProposal)
  | viewChange (view : Nat) (epoch : Option Nat)
deriving Repr, DecidableEq

/-- Outcome of the receive pipeline: final shared state, broadcast events in
order, and the error if the pipeline bailed. -/
structure RecvResult where
  state : ConsensusState
  events : List RecvEvent
  error : Option String
deriving Repr, DecidableEq

/-- Continuation of handle_quorum_proposal_recv after the preliminary
broadcast: parent resolution, high-QC update, and either the liveness path
(parent missing) or the safety-and-liveness path. -/
def recvAfterBroadcast (env : RecvEnv) (st : ConsensusState) (p : QuorumProposal) :
    RecvResult :=
  let events := [RecvEvent.prelimValidated p]
  let proposalEpoch := optionEpochFromBlockNumber p.epoch.isSome
      p.blockHeader.blockNumber env.epochHeight
  let parentLeaf := lookupLeaf st.savedLeaves p.justifyQc.data.leafCommit
  let parentStateMissing :=
    match parentLeaf with
    | some leaf => (lookupNat st.validatedStateMap leaf.viewNumber).isNone
    | none => false
  if parentStateMissing then
    { state := st, events := events
      error := some "Parent state not found. Consensus internally inconsistent" }
  else
    let highUpdate := st.highQc.viewNumber < p.justifyQc.viewNumber
    if highUpdate && !env.updateHighQcOk then
      { state := st, events := events, error := some "Failed to update high QC" }
    else
      let st1 := if highUpdate then { st with highQc := p.justifyQc } else st
      match parentLeaf with
      | none =>
        let res := validateProposalLiveness env st1 p
        (match res.2 with
         | .error .noBlockNumber =>
           { state := res.1, events := events
             error := some "Quorum Proposal has no block number after the epoch upgrade" }
         | .error .epochTransitionQcFailed =>
           { state := res.1, events := events
             error := some "Invalid epoch transition QC" }
         | .error .livenessFailed =>
           { state := res.1, events := events
             error := some "Quorum Proposal failed the liveness check" }
         | .ok () =>
           let stb := { res.1 with
             highestBlock := max res.1.highestBlock p.blockHeader.blockNumber }
           { state := stb
             events := events ++ [RecvEvent.viewChange p.viewNumber proposalEpoch]
             error := none })
      | some _ =>
        if !env.safetyAndLivenessOk then
          { state := st1, events := events
            error := some "Failed safety and liveness validation" }
        else
          let st2 := { st1 with
            highestBlock := max st1.highestBlock p.blockHeader.blockNumber }
          let st3 := { st2 with highestBlock := p.blockHeader.blockNumber }
          { state := st3
            events := events ++ [RecvEvent.viewChange p.viewNumber proposalEpoch]
            error := none }

/-- Full receive pipeline (handle_quorum_proposal_recv): the preliminary checks
run first; only on their success is QuorumProposalPreliminarilyValidated
broadcast and the rest of the pipeline entered. -/
def handleQuorumProposalRecv (env : RecvEnv) (st : ConsensusState)
    (p : QuorumProposal) : RecvResult :=
  match recvPrelimChecks env st p with
  | .error e => { state := st, events := [], error := some e }
  | .ok () => recvAfterBroadcast env st p

/-! ## Vote pipeline

Source: hotshot-task-impls/src/quorum_vote/handlers.rs (verify_drb_result and
submit_vote) and hotshot-task-impls/src/quorum_vote/mod.rs (the VidShareRecv
branch of QuorumVoteTaskState::handle). -/

/-- Task-state slice used by verify_drb_result: the epoch height, the epochs
flag of the upgrade lock at the proposal view, the per-epoch stake oracle of
the membership coordinator (none when the stake table is missing) and the
shared DRB results table. -/
structure DrbTaskState where
  epochHeight : Nat
  epochsEnabled : Bool
  membershipHasStake : Option Nat → Option Bool
  drbResults : List (Nat × Nat)

/-- DRB result verification at the last block of an epoch (verify_drb_result):
skipped entirely off the last block; on the last block the proposal must carry
a next DRB result, and a committee member must find it equal to the locally
stored result for the next epoch. -/
def verifyDrbResult (ts : DrbTaskState) (p : QuorumProposal) : Except String Unit :=
  if ts.epochHeight == 0 ||
      !isLastBlockInEpoch p.blockHeader.blockNumber ts.epochHeight then
    .ok ()
  else
    let epoch := optionEpochFromBlockNumber ts.epochsEnabled
        p.blockHeader.blockNumber ts.epochHeight
    match p.nextDrbResult with
    | none => .error "Proposal is missing the DRB result"
    | some proposalResult =>
      match epoch with
      | none => .error "Epochs are not available"
      | some epochVal =>
        match ts.membershipHasStake epoch with
        | none => .error "No stake table for epoch"
        | some hasStakeCurrentEpoch =>
          if hasStakeCurrentEpoch then
            match lookupNat ts.drbResults (epochVal + 1) with
            | none => .error "DRB result not found"
            | some computedResult =>
              if proposalResult == computedResult then .ok ()
              else .error "Calculated DRB result does not match the proposed DRB result"
          else .ok ()

/-- Membership handle passed to submit_vote: stake of this node in the leaf
epoch, and the fallible next-epoch handle carrying the next-epoch stake of
this node. -/
structure VoteMembership where
  hasStakeCurrent : Bool
  nextEpoch : Option Bool
  epoch : Option Nat

/-- Oracle outcomes of the fallible steps of submit_vote. -/
structure VoteEnv where
  signOk : Bool
  storageOk : Bool

/-- Leaf fields read by submit_vote. -/
structure VoteLeaf where
  height : Nat
  withEpoch : Bool
  commit : Nat
deriving Repr, DecidableEq

/-- Vote events broadcast by submit_vote. -/
inductive VoteEvent where
  | quorumVoteSend
  | extendedQuorumVoteSend
deriving Repr, DecidableEq

/-- Vote submission (submit_vote): the node must have stake in the current
epoch, or the leaf must close its epoch while the node has stake in the next
epoch; then the vote is signed, the VID share stored, and a plain or extended
vote event broadcast. -/
def submitVote (env : VoteEnv) (membership : VoteMembership) (leaf : VoteLeaf)
    (extendedVote : Bool) (epochHeight : Nat) : Except String VoteEvent :=
  let memberCurrent := membership.hasStakeCurrent
  if leaf.withEpoch && isLastBlockInEpoch leaf.height epochHeight &&
      membership.nextEpoch == none then
    .error "Missing next epoch membership"
  else
    let memberNext := leaf.withEpoch && isLastBlockInEpoch leaf.height epochHeight &&
        membership.nextEpoch == some true
    if !memberCurrent && !memberNext then
      .error "We were not chosen for quorum committee"
    else if !env.signOk then
      .error "Failed to sign vote"
    else if !env.storageOk then
      .error "Failed to store VID share"
    else if extendedVote then .ok .extendedQuorumVoteSend
    else .ok .quorumVoteSend

/-- VID share fields read by the VidShareRecv branch. -/
structure VidShare where
  viewNumber : Nat
  payloadCommitment : Nat
  epoch : Option Nat
  targetEpoch : Option Nat
  recipientKey : Nat
deriving Repr, DecidableEq

/-- Per-epoch membership slice used by the VidShareRecv branch: DA membership
of the sender at the share view, the fallible leader lookup at that view, and
the stake-table weight feeding vid_total_weight. -/
structure VidMembership where
  senderIsDaMember : Bool
  leaderResult : Option Nat
  totalWeight : Nat

/-- Environment of the VidShareRecv branch. -/
structure VidEnv where
  sigValid : Bool
  membershipFor : Option Nat → Option VidMembership
  verifyShare : Nat → Bool
  publicKey : Nat
  latestVotedView : Nat

/-- VidShareRecv branch of QuorumVoteTaskState::handle: the VidShareValidated
broadcast is reached only after the view-freshness guard, the sender signature
check, the DA-member-or-leader check, the share verification against the
target-epoch total weight, and the recipient-key check all pass. -/
def handleVidShareRecv (env : VidEnv) (sender : Nat) (share : VidShare) :
    Except String Unit :=
  if !(env.latestVotedView < share.viewNumber) then
    .error "Received VID share for an older view"
  else if !env.sigValid then
    .error "VID share signature is invalid"
  else
    match env.membershipFor share.epoch with
    | none => .error "No stake table for the VID epoch"
    | some m =>
      let senderOk :=
        if m.senderIsDaMember then .ok ()
        else
          match m.leaderResult with
          | none => Except.error "Failed leader lookup"
          | some leaderKey =>
            if leaderKey == sender then .ok ()
            else .error "VID share was not sent by a DA member or the view leader"
      exceptSeq senderOk
        (match env.membershipFor share.targetEpoch with
         | none => .error "No stake table for the target epoch"
         | some tm =>
           if !env.verifyShare tm.totalWeight then
             .error "Failed to verify VID share"
           else if !(share.recipientKey == env.publicKey) then
             .error "Got a valid VID share but it is not for our key"
           else .ok ())

/-- Boolean reading of the DA-member-or-leader condition of the claim. -/
def vidSenderEligible (env : VidEnv) (sender : Nat) (share : VidShare) : Bool :=
  match env.membershipFor share.epoch with
  | none => false
  | some m => m.senderIsDaMember || m.leaderResult == some sender

/-- Boolean reading of the share-verification condition of the claim. -/
def vidShareVerifies (env : VidEnv) (share : VidShare) : Bool :=
  match env.membershipFor share.targetEpoch with
  | none => false
  | some tm => env.verifyShare tm.totalWeight

/-! ## Highest-QC gathering

Source: hotshot-task-impls/src/quorum_proposal/handlers.rs,
ProposalDependencyHandle::wait_for_highest_qc and wait_for_qc_event.  The wait
window is modelled by the sequence of bus events pending when the drain loop
runs (drained) followed by the events that arrive before the deadline (tail).
The inner wait_for_qc_event consumes a clone of the receiver of the handle and
the outer loop re-clones that receiver on every iteration, so each inner call
re-scans the same tail from its beginning; the scan stops at the first event
whose QC validates (returning it, or returning none when an epoch-root QC
arrives with a missing or invalid state cert). -/

/-- Wait-window bus events relevant to the QC gathering. -/
inductive WaitEvent where
  | highQcRecv (qc : QuorumCertificate) (nextQc : Option QuorumCertificate)
  | epochRootQcRecv (qc : QuorumCertificate) (stateCert : LightClientStateCert)
  | other
deriving Repr, DecidableEq

/-- Environment of the QC gathering: the QC validator and the light-client
cert validator, plus the epoch height. -/
structure WaitEnv where
  qcValid : QuorumCertificate → Option QuorumCertificate → Bool
  certValid : LightClientStateCert → Bool
  epochHeight : Nat

/-- Extraction of the QC, optional next-epoch QC and optional state cert from
a bus event, mirroring the match at the top of both loops. -/
def waitEventQc (e : WaitEvent) :
    Option (QuorumCertificate × Option QuorumCertificate × Option LightClientStateCert) :=
  match e with
  | .highQcRecv qc nextQc => some (qc, nextQc, none)
  | .epochRootQcRecv qc stateCert => some (qc, none, some stateCert)
  | .other => none

/-- One step of the drain loop of wait_for_highest_qc: a valid QC replaces the
running best when its view is strictly higher; an epoch-root QC additionally
needs a verifying, corresponding state cert, otherwise it is skipped. -/
def drainStep (env : WaitEnv)
    (best : QuorumCertificate × Option LightClientStateCert) (e : WaitEvent) :
    QuorumCertificate × Option LightClientStateCert :=
  match waitEventQc e with
  | none => best
  | some (qc, nextQc, maybeStateCert) =>
    if env.qcValid qc nextQc then
      if qcIsEpochRoot qc env.epochHeight then
        match maybeStateCert with
        | some sc =>
          if env.certValid sc && checkQcStateCertCorrespondence qc sc env.epochHeight then
            if best.1.viewNumber < qc.viewNumber then (qc, some sc) else best
          else best
        | none => best
      else
        if best.1.viewNumber < qc.viewNumber then (qc, none) else best
    else best

/-- Scan of wait_for_qc_event over the replayed tail: events whose QC fails
validation are skipped; the first event with a valid QC is returned, as none
when it is an epoch-root QC with a missing or invalid state cert. -/
def waitForQcEventScan (env : WaitEnv) :
    List WaitEvent → Option (Option (QuorumCertificate × Option LightClientStateCert))
  | [] => none
  | e :: rest =>
    match waitEventQc e with
    | none => waitForQcEventScan env rest
    | some (qc, nextQc, maybeStateCert) =>
      if env.qcValid qc nextQc then
        if qcIsEpochRoot qc env.epochHeight then
          match maybeStateCert with
          | some sc =>
            if env.certValid sc && checkQcStateCertCorrespondence qc sc env.epochHeight then
              some (some (qc, some sc))
            else some none
          | none => some none
        else some (some (qc, none))
      else waitForQcEventScan env rest

/-- Application of the timed phase of wait_for_highest_qc: the first valid QC
of the tail replaces the best when strictly higher; a poisoned or empty scan
leaves the best unchanged until the deadline returns it. -/
def timedPhase (env : WaitEnv)
    (best : QuorumCertificate × Option LightClientStateCert)
    (tail : List WaitEvent) : QuorumCertificate × Option LightClientStateCert :=
  match waitForQcEventScan env tail with
  | some (some (qc, maybeStateCert)) =>
    if best.1.viewNumber < qc.viewNumber then (qc, maybeStateCert) else best
  | _ => best

/-- Highest-QC wait (wait_for_highest_qc): the best starts from the local high
QC (with the stored state cert when that QC is an epoch root), the pending
events are drained, and the timed phase applies the first valid arrival. -/
def waitForHighestQc (env : WaitEnv) (highQc : QuorumCertificate)
    (consensusStateCert : Option LightClientStateCert)
    (drained tail : List WaitEvent) :
    QuorumCertificate × Option LightClientStateCert :=
  let initCert := if qcIsEpochRoot highQc env.epochHeight then consensusStateCert
    else none
  let best := drained.foldl (drainStep env) (highQc, initCert)
  timedPhase env best tail

/-- View contributed by a wait-window event when it passes the validation
applied by the drain loop (QC validation, plus state-cert validation for
epoch-root QCs), and none otherwise. -/
def validArrivalView (env : WaitEnv) (e : WaitEvent) : Option Nat :=
  match waitEventQc e with
  | none => none
  | some (qc, nextQc, maybeStateCert) =>
    if env.qcValid qc nextQc then
      if qcIsEpochRoot qc env.epochHeight then
        match maybeStateCert with
        | some sc =>
          if env.certValid sc && checkQcStateCertCorrespondence qc sc env.epochHeight then
            some qc.viewNumber
          else none
        | none => none
      else some qc.viewNumber
    else none

/-- Views of all wait-window events that pass validation, the quantity the
claim takes the maximum over. -/
def allValidArrivalViews (env : WaitEnv) (events : List WaitEvent) : List Nat :=
  events.filterMap (validArrivalView env)

/-- Views actually considered by wait_for_highest_qc: every valid drained
event, and the first valid event of the tail when the scan is neither empty
nor poisoned. -/
def consideredViews (env : WaitEnv) (drained tail : List WaitEvent) : List Nat :=
  drained.filterMap (validArrivalView env) ++
    (match waitForQcEventScan env tail with
     | some (some (qc, _)) => [qc.viewNumber]
     | _ => [])

/-! ## Proposal publication

Source: hotshot-task-impls/src/quorum_proposal/handlers.rs,
ProposalDependencyHandle::publish_proposal.  Header construction, the
parent-leaf resolution, version and leader lookups are oracles; the gate
structure is translated from the source, including the two silent no-proposal
returns (missing parent block number in epoch mode, and lost leadership). -/

/-- Payload commitment and metadata gathered from SendPayloadCommitmentAndMetadata. -/
structure CommitmentAndMetadata where
  commitment : Nat
  builderCommitment : Nat
  metadata : Nat
  blockView : Nat
deriving Repr, DecidableEq

/-- Environment of publish_proposal. -/
structure PubEnv where
  parentCommit : Option Nat
  versionRes : Option Nat
  epochsVersion : Nat
  marketplaceVersion : Nat
  upgradeView : Nat
  epochsEnabled : Bool
  headerRes : Option BlockHeader
  leaderRes : Option Bool
  nextEpochQcWaitRes : Option QuorumCertificate
  drbResults : List (Nat × Nat)
  signOk : Bool
  emptyBuilderCommitment : Nat
  emptyMetadata : Nat
  epochHeight : Nat

/-- Broadcast payload of QuorumProposalSend. -/
structure PubMessage where
  header : BlockHeader
  viewNumber : Nat
  epoch : Option Nat
  justifyQc : QuorumCertificate
  nextEpochJustifyQc : Option QuorumCertificate
  stateCert : Option LightClientStateCert
  nextDrbResult : Option Nat
deriving Repr, DecidableEq

/-- Tail of publish_proposal after the epoch-rule gates: header construction,
leader re-check, next-epoch-QC selection, DRB attachment, parent-commitment
check and signing. -/
def publishProposalTail (env : PubEnv) (viewNumber : Nat)
    (parentQc : QuorumCertificate) (maybeNextEpochQc : Option QuorumCertificate)
    (maybeStateCert : Option LightClientStateCert) (parentCommit version : Nat) :
    Except String (Option PubMessage) :=
  match env.headerRes with
  | none => .error "Failed to construct block header"
  | some header =>
    match env.leaderRes with
    | none => .error "Failed to look up the leader for the proposal epoch"
    | some isLeader =>
      if !isLeader then .ok none
      else
        let isHighQcForLastBlock :=
          match parentQc.data.blockNumber with
          | some bn => isEpochTransition bn env.epochHeight
          | none => false
        let nextEpochQc :=
          if env.epochsEnabled && isHighQcForLastBlock then
            match maybeNextEpochQc with
            | some qc => some qc
            | none => env.nextEpochQcWaitRes
          else none
        let epoch := optionEpochFromBlockNumber (env.epochsVersion ≤ version)
            header.blockNumber env.epochHeight
        let nextDrbResult :=
          if isEpochTransition header.blockNumber env.epochHeight then
            match epoch with
            | some epochVal => lookupNat env.drbResults (epochVal + 1)
            | none => none
          else none
        if !(parentQc.data.leafCommit == parentCommit) then
          .error "Proposed leaf parent does not equal high qc"
        else if !env.signOk then
          .error "Failed to sign proposed leaf commitment"
        else
          .ok (some { header := header, viewNumber := viewNumber, epoch := epoch
                      justifyQc := parentQc, nextEpochJustifyQc := nextEpochQc
                      stateCert := maybeStateCert, nextDrbResult := nextDrbResult })

/-- Proposal publication (publish_proposal): parent resolution, the
stale-payload guard, the version lookup, and in epoch mode the transition
emptiness and epoch-root state-cert gates on the parent block, then the tail. -/
def publishProposal (env : PubEnv) (cm : CommitmentAndMetadata) (viewNumber : Nat)
    (parentQc : QuorumCertificate) (maybeNextEpochQc : Option QuorumCertificate)
    (maybeStateCert : Option LightClientStateCert) :
    Except String (Option PubMessage) :=
  match env.parentCommit with
  | none => .error "Failed to resolve the parent leaf and state"
  | some parentCommit =>
    if !(cm.blockView == viewNumber) then
      .error "Cannot propose because the payload commitment is for an older view"
    else
      match env.versionRes with
      | none => .error "Failed to get version"
      | some version =>
        if env.epochsVersion ≤ version && !(viewNumber == env.upgradeView) then
          match parentQc.data.blockNumber with
          | none => .ok none
          | some parentBn =>
            if isEpochTransition parentBn env.epochHeight &&
                !isLastBlock parentBn env.epochHeight &&
                !(cm.builderCommitment == env.emptyBuilderCommitment &&
                  cm.metadata == env.emptyMetadata) then
              .error "Trying to propose a non empty block in the epoch transition"
            else if isEpochRoot parentBn env.epochHeight &&
                !(match maybeStateCert with
                  | some sc => checkQcStateCertCorrespondence parentQc sc env.epochHeight
                  | none => false) then
              .error "Proposing with a parent epoch root QC without the corresponding state cert"
            else
              publishProposalTail env viewNumber parentQc maybeNextEpochQc
                maybeStateCert parentCommit version
        else
          publishProposalTail env viewNumber parentQc maybeNextEpochQc
            maybeStateCert parentCommit version

/-! ## Claim-side predicates and concrete evaluation inputs -/

/-- Combined state-cert obligation of the epoch-root check: a cert is attached,
corresponds to the justify QC and passes light-client verification. -/
def epochRootCertOk (env : RecvEnv) (p : QuorumProposal) : Bool :=
  match p.stateCert with
  | none => false
  | some cert =>
    checkQcStateCertCorrespondence p.justifyQc cert env.epochHeight &&
      env.lightClientCertOk cert

/-- Concrete receive environment with epoch height ten and all oracles passing. -/
def envW : RecvEnv where
  epochsEnabled := fun _ => true
  upgradeView := 0
  validateEpochOk := true
  viewAndCertsOk := true
  lightClientCertOk := fun _ => true
  qcAndNextQcOk := fun _ _ => true
  safetyAndLivenessOk := true
  updateHighQcOk := true
  epochTransitionQcOk := true
  leafCommit := fun _ => 0
  stateFromHeader := fun _ => 0
  emptyBuilderCommitment := 0
  emptyMetadata := 0
  epochHeight := 10

/-- Concrete parent leaf at height seven. -/
def parentW : QuorumProposal where
  viewNumber := 7
  epoch := some 0
  blockHeader := { blockNumber := 7, builderCommitment := 0, metadata := 0 }
  justifyQc :=
    { data := { leafCommit := 99, epoch := some 0, blockNumber := some 6 }
      viewNumber := 6 }
  nextEpochJustifyQc := none
  stateCert := none
  nextDrbResult := none

/-- Concrete consensus state holding the parent leaf and its validated state. -/
def stW : ConsensusState where
  highQc :=
    { data := { leafCommit := 100, epoch := some 0, blockNumber := some 7 }
      viewNumber := 7 }
  lockedView := 0
  savedLeaves := [(100, parentW)]
  validatedStateMap := [(7, 0)]
  consensusStateCert := none
  highestBlock := 7

/-- Concrete proposal for the transition block at height eight with a non-empty
builder commitment, justified by the epoch-root QC at height seven. -/
def pW : QuorumProposal where
  viewNumber := 8
  epoch := some 0
  blockHeader := { blockNumber := 8, builderCommitment := 1, metadata := 0 }
  justifyQc :=
    { data := { leafCommit := 100, epoch := some 0, blockNumber := some 7 }
      viewNumber := 7 }
  nextEpochJustifyQc := none
  stateCert := some { epoch := 0, blockHeight := 7 }
  nextDrbResult := none

/-- Concrete proposal equal to pW except that no state cert is attached. -/
def pBad : QuorumProposal where
  viewNumber := 8
  epoch := some 0
  blockHeader := { blockNumber := 8, builderCommitment := 1, metadata := 0 }
  justifyQc :=
    { data := { leafCommit := 100, epoch := some 0, blockNumber := some 7 }
      viewNumber := 7 }
  nextEpochJustifyQc := none
  stateCert := none
  nextDrbResult := none

/-- Concrete consensus state whose locked view exceeds every justify view used
by the concrete proposals, so that the liveness check fails. -/
def stLockedW : ConsensusState where
  highQc :=
    { data := { leafCommit := 100, epoch := some 0, blockNumber := some 7 }
      viewNumber := 7 }
  lockedView := 100
  savedLeaves := []
  validatedStateMap := []
  consensusStateCert := none
  highestBlock := 7

/-- Concrete publish environment with epoch height ten. -/
def pubEnvW : PubEnv where
  parentCommit := some 100
  versionRes := some 5
  epochsVersion := 4
  marketplaceVersion := 99
  upgradeView := 0
  epochsEnabled := true
  headerRes := some { blockNumber := 9, builderCommitment := 0, metadata := 0 }
  leaderRes := some true
  nextEpochQcWaitRes := none
  drbResults := [(1, 42)]
  signOk := true
  emptyBuilderCommitment := 0
  emptyMetadata := 0
  epochHeight := 10

/-- Concrete empty payload commitment and metadata for view nine. -/
def cmW : CommitmentAndMetadata where
  commitment := 0
  builderCommitment := 0
  metadata := 0
  blockView := 9

/-- Concrete parent QC at height eight, inside the transition window. -/
def parentQcW : QuorumCertificate where
  data := { leafCommit := 100, epoch := some 0, blockNumber := some 8 }
  viewNumber := 8

/-- Message produced by publishProposal on the concrete publish inputs. -/
def msgW : PubMessage where
  header := { blockNumber := 9, builderCommitment := 0, metadata := 0 }
  viewNumber := 9
  epoch := some 0
  justifyQc := parentQcW
  nextEpochJustifyQc := none
  stateCert := none
  nextDrbResult := some 42

/-- Concrete wait environment accepting every QC and cert. -/
def wEnvX : WaitEnv where
  qcValid := fun _ _ => true
  certValid := fun _ => true
  epochHeight := 10

/-- Concrete local high QC at view three. -/
def qcLocalX : QuorumCertificate where
  data := { leafCommit := 0, epoch := none, blockNumber := none }
  viewNumber := 3

/-- Concrete inbound QC at view five. -/
def qcFiveX : QuorumCertificate where
  data := { leafCommit := 0, epoch := none, blockNumber := none }
  viewNumber := 5

/-- Concrete inbound QC at view nine. -/
def qcNineX : QuorumCertificate where
  data := { leafCommit := 0, epoch := none, blockNumber := none }
  viewNumber := 9

/-- Concrete tail of the wait window: a valid QC at view five arrives before a
valid QC at view nine. -/
def tailX : List WaitEvent :=
  [WaitEvent.highQcRecv qcFiveX none, WaitEvent.highQcRecv qcNineX none]

/-- Concrete vote-submission environment with all fallible steps passing. -/
def voteEnvW : VoteEnv where
  signOk := true
  storageOk := true

/-- Concrete vote membership with current-epoch stake. -/
def voteMemW : VoteMembership where
  hasStakeCurrent := true
  nextEpoch := some false
  epoch := some 0

/-- Concrete leaf voted on at height five of epoch height ten. -/
def voteLeafW : VoteLeaf where
  height := 5
  withEpoch := true
  commit := 77

/-- Concrete DRB task state storing result forty-two for epoch one. -/
def drbTsW : DrbTaskState where
  epochHeight := 10
  epochsEnabled := true
  membershipHasStake := fun _ => some true
  drbResults := [(1, 42)]

/-- Concrete last-block proposal carrying DRB result forty-two. -/
def pDrbW : QuorumProposal where
  viewNumber := 12
  epoch := some 0
  blockHeader := { blockNumber := 10, builderCommitment := 0, metadata := 0 }
  justifyQc :=
    { data := { leafCommit := 100, epoch := some 0, blockNumber := some 9 }
      viewNumber := 11 }
  nextEpochJustifyQc := none
  stateCert := none
  nextDrbResult := some 42

/-- Concrete VID environment whose oracles all pass for the share below. -/
def vidEnvW : VidEnv where
  sigValid := true
  membershipFor := fun _ => some { senderIsDaMember := true, leaderResult := some 2, totalWeight := 4 }
  verifyShare := fun _ => true
  publicKey := 1
  latestVotedView := 3

/-- Concrete VID share addressed to key one at view four. -/
def vidShareW : VidShare where
  viewNumber := 4
  payloadCommitment := 5
  epoch := some 0
  targetEpoch := some 0
  recipientKey := 1

/-! ## Helper lemmas -/

/-- Sequencing succeeds exactly when both components succeed. -/
theorem exceptSeq_ok {a b : Except String Unit} (h : exceptSeq a b = .ok ()) :
    a = .ok () ∧ b = .ok () := by
  cases a with
  | error e => simp [exceptSeq] at h
  | ok u => cases u; exact ⟨rfl, h⟩

/-- Presence of the preliminary-validation event forces success of the
preliminary checks. -/
theorem recv_events_prelim {env : RecvEnv} {st : ConsensusState} {p : QuorumProposal}
    (h : RecvEvent.prelimValidated p ∈ (handleQuorumProposalRecv env st p).events) :
    recvPrelimChecks env st p = .ok () := by
  unfold handleQuorumProposalRecv at h
  cases hc : recvPrelimChecks env st p with
  | error e => rw [hc] at h; simp at h
  | ok u => cases u; rfl

/-- Success of the preliminary checks implies success of the block-height check. -/
theorem recvPrelim_blockHeight {env : RecvEnv} {st : ConsensusState}
    {p : QuorumProposal} (h : recvPrelimChecks env st p = .ok ()) :
    validateBlockHeight p = .ok () := by
  unfold recvPrelimChecks at h
  have h1 := (exceptSeq_ok h).2
  have h2 := (exceptSeq_ok h1).2
  have h3 := (exceptSeq_ok h2).2
  exact (exceptSeq_ok h3).1

/-- Success of the preliminary checks implies success of the epoch-root
state-cert check. -/
theorem recvPrelim_rootCert {env : RecvEnv} {st : ConsensusState}
    {p : QuorumProposal} (h : recvPrelimChecks env st p = .ok ()) :
    validateEpochRootStateCert env p = .ok () := by
  unfold recvPrelimChecks at h
  have h1 := (exceptSeq_ok h).2
  have h2 := (exceptSeq_ok h1).2
  have h3 := (exceptSeq_ok h2).2
  have h4 := (exceptSeq_ok h3).2
  exact (exceptSeq_ok h4).1

/-- Success of the preliminary checks implies success of the epoch-transition
block check. -/
theorem recvPrelim_transitionBlock {env : RecvEnv} {st : ConsensusState}
    {p : QuorumProposal} (h : recvPrelimChecks env st p = .ok ()) :
    validateEpochTransitionBlock env p = .ok () := by
  unfold recvPrelimChecks at h
  have h1 := (exceptSeq_ok h).2
  have h2 := (exceptSeq_ok h1).2
  have h3 := (exceptSeq_ok h2).2
  have h4 := (exceptSeq_ok h3).2
  have h5 := (exceptSeq_ok h4).2
  exact (exceptSeq_ok h5).1

/-! ## C8: membership thresholds -/

/-- C8: for a stake table of n entries, both membership implementations return
success threshold floor(2n/3)+1, failure threshold floor(n/3)+1, and upgrade
threshold max(floor(9n/10), floor(2n/3)+1), in exact integer arithmetic. -/
theorem membership_thresholds_exact (n : Nat) (h : 9 * n < U64SIZE) :
    rcSuccessThreshold n = 2 * n / 3 + 1 ∧
    rcFailureThreshold n = n / 3 + 1 ∧
    rcUpgradeThreshold n = max (9 * n / 10) (2 * n / 3 + 1) ∧
    stSuccessThreshold n = 2 * n / 3 + 1 ∧
    stFailureThreshold n = n / 3 + 1 ∧
    stUpgradeThreshold n = max (9 * n / 10) (2 * n / 3 + 1) := by
  have hn : n < U64SIZE := by omega
  have h2 : n * 2 < U64SIZE := by omega
  have h9 : n * 9 < U64SIZE := by omega
  simp only [rcSuccessThreshold, rcFailureThreshold, rcUpgradeThreshold,
    stSuccessThreshold, stFailureThreshold, stUpgradeThreshold,
    Nat.mod_eq_of_lt hn, Nat.mod_eq_of_lt h2, Nat.mod_eq_of_lt h9]
  simp [Nat.mul_comm]

/-- Witness for C8 at a committee of five nodes. -/
theorem membership_thresholds_exact_witness :
    9 * 5 < U64SIZE ∧ rcSuccessThreshold 5 = 2 * 5 / 3 + 1 :=
  ⟨by norm_num [U64SIZE], (membership_thresholds_exact 5 (by norm_num [U64SIZE])).1⟩

/-! ## C7: ViewChange cancellation in the proposal task -/

/-- C7 counterexample: a dependency handle exists for view four and
ViewChange with view five arrives, so five exceeds every handle view, yet the
handle for view four is kept and nothing is aborted, contradicting the claim
that every view strictly below five is cancelled. -/
theorem view_change_cancel_counterexample :
    4 < 5 ∧ handleProposalViewChange 5 [(4, 0)] = ([(4, 0)], []) := by decide

/-- C7 amended: on ViewChange with view v the proposal task cancels exactly the
dependency handles for views strictly below v - 1; the handle for view v - 1
itself (and any later view) is kept. -/
theorem view_change_cancel_amended (view : Nat) (deps : List (Nat × Nat))
    (t : Nat × Nat) (ht : t ∈ deps) :
    (t.1 < view - 1 ↔ t ∈ (handleProposalViewChange view deps).2) ∧
    (view - 1 ≤ t.1 ↔ t ∈ (handleProposalViewChange view deps).1) := by
  unfold handleProposalViewChange cancelTasks
  constructor
  · simp [List.mem_filter, ht]
  · simp [List.mem_filter, ht]

/-- Witness for C7 amended: the handle at view three is aborted by ViewChange
with view five. -/
theorem view_change_cancel_amended_witness :
    (3, 7) ∈ [((3 : Nat), (7 : Nat))] ∧
    ((3, 7).1 < 5 - 1 ↔ (3, 7) ∈ (handleProposalViewChange 5 [(3, 7)]).2) :=
  ⟨by decide, (view_change_cancel_amended 5 [(3, 7)] (3, 7) (by decide)).1⟩

/-! ## C6: block-height monotonicity -/

/-- C6: a proposal whose justify QC carries a block number reaches the
preliminary-validation broadcast only when its header block number is the
certified block number plus one; with no block number on the justify QC the
block-height check passes unconditionally. -/
theorem block_height_monotonicity (env : RecvEnv) (st : ConsensusState)
    (p : QuorumProposal) :
    (∀ bn, p.justifyQc.data.blockNumber = some bn → bn + 1 < U64SIZE →
      RecvEvent.prelimValidated p ∈ (handleQuorumProposalRecv env st p).events →
      p.blockHeader.blockNumber = bn + 1) ∧
    (p.justifyQc.data.blockNumber = none → validateBlockHeight p = .ok ()) := by
  constructor
  · intro bn hbn hlt hmem
    have hok := recvPrelim_blockHeight (recv_events_prelim hmem)
    unfold validateBlockHeight at hok
    rw [hbn] at hok
    by_cases hc : (bn + 1) % U64SIZE == p.blockHeader.blockNumber
    · have := Nat.mod_eq_of_lt hlt
      have hc2 := of_decide_eq_true hc
      omega
    · simp [hc] at hok
  · intro hnone
    unfold validateBlockHeight
    rw [hnone]

/-- Witness for C6: on the concrete accepted proposal the header height eight
equals the justify-QC height seven plus one. -/
theorem block_height_monotonicity_witness :
    pW.blockHeader.blockNumber = 7 + 1 :=
  (block_height_monotonicity envW stW pW).1 7 (by decide)
    (by norm_num [U64SIZE]) (by decide)

/-! ## C1: epoch-root state-cert requirement -/

/-- C1: in epoch mode, a proposal whose justify QC certifies an epoch root
fails the receive pipeline, with no preliminary-validation broadcast, unless a
state cert is attached that corresponds to the justify QC and verifies. -/
theorem epoch_root_state_cert_required (env : RecvEnv) (st : ConsensusState)
    (p : QuorumProposal) (bn : Nat)
    (_hmode : env.epochsEnabled p.viewNumber = true)
    (hbn : p.justifyQc.data.blockNumber = some bn)
    (hroot : isEpochRoot bn env.epochHeight = true)
    (hbad : epochRootCertOk env p = false) :
    (handleQuorumProposalRecv env st p).error.isSome = true ∧
    RecvEvent.prelimValidated p ∉ (handleQuorumProposalRecv env st p).events := by
  have hne : ∀ u, recvPrelimChecks env st p ≠ .ok u := by
    intro u hok
    cases u
    have hcert := recvPrelim_rootCert hok
    unfold validateEpochRootStateCert at hcert
    unfold epochRootCertOk at hbad
    cases hsc : p.stateCert with
    | none => simp only [hbn, hroot, hsc, if_true] at hcert; simp at hcert
    | some cert =>
      simp only [hbn, hroot, hsc, if_true] at hcert
      rw [hsc] at hbad
      by_cases h1 : checkQcStateCertCorrespondence p.justifyQc cert env.epochHeight
      · by_cases h2 : env.lightClientCertOk cert
        · simp [h1, h2] at hbad
        · simp [h1, h2] at hcert
      · simp [h1] at hcert
  unfold handleQuorumProposalRecv
  cases hc : recvPrelimChecks env st p with
  | error e => simp
  | ok u => exact absurd hc (hne u)

/-- Witness for C1: the concrete proposal with the epoch-root justify QC and no
attached state cert is rejected. -/
theorem epoch_root_state_cert_required_witness :
    (handleQuorumProposalRecv envW stW pBad).error.isSome = true :=
  (epoch_root_state_cert_required envW stW pBad 7 (by decide) (by decide)
    (by decide) (by decide)).1

/-! ## C10: liveness failure is not atomic -/

/-- C10: when validate_proposal_liveness fails its liveness check, the proposed
leaf and its header-derived state have already been inserted into the shared
leaf and validated-state maps of the state it returns. -/
theorem liveness_failure_state_inserted (env : RecvEnv) (st : ConsensusState)
    (p : QuorumProposal)
    (h : (validateProposalLiveness env st p).2 = .error .livenessFailed) :
    (env.leafCommit p, p) ∈ (validateProposalLiveness env st p).1.savedLeaves ∧
    (p.viewNumber, env.stateFromHeader p.blockHeader) ∈
      (validateProposalLiveness env st p).1.validatedStateMap := by
  unfold validateProposalLiveness at h ⊢
  by_cases h1 : env.epochsEnabled p.viewNumber && p.justifyQc.data.blockNumber == none
  · rw [if_pos h1] at h; simp at h
  · rw [if_neg h1] at h
    rw [if_neg h1]
    by_cases h2 : (env.epochsEnabled p.viewNumber &&
        match p.justifyQc.data.blockNumber with
        | some bn => isEpochTransition bn env.epochHeight
        | none => false) && !env.epochTransitionQcOk
    · rw [if_pos h2] at h; simp at h
    · rw [if_neg h2]
      exact ⟨List.mem_cons_self _ _, List.mem_cons_self _ _⟩

/-- Witness for C10: the concrete proposal against the locked state fails the
liveness check and its leaf is nevertheless present in the returned map. -/
theorem liveness_failure_state_inserted_witness :
    (envW.leafCommit pW, pW) ∈
      (validateProposalLiveness envW stLockedW pW).1.savedLeaves :=
  (liveness_failure_state_inserted envW stLockedW pW (by rfl)).1

/-! ## C2: transition-block emptiness (corrected) -/

/-- C2 counterexample: the concrete non-empty proposal at height eight, the
transition block of epoch height ten, satisfies the claimed guard (inside the
epoch transition and not the last block) and is nevertheless accepted by the
full receive pipeline with a builder commitment different from the empty one. -/
theorem transition_emptiness_counterexample :
    (handleQuorumProposalRecv envW stW pW).error = none ∧
    RecvEvent.prelimValidated pW ∈ (handleQuorumProposalRecv envW stW pW).events ∧
    isEpochTransition pW.blockHeader.blockNumber envW.epochHeight = true ∧
    isLastBlock pW.blockHeader.blockNumber envW.epochHeight = false ∧
    pW.blockHeader.builderCommitment ≠ envW.emptyBuilderCommitment := by decide

/-- C2 amended: in epoch mode the receive pipeline accepts a block inside the
epoch transition window only if it is the transition block itself or carries
the empty builder commitment and metadata, and publish_proposal emits a
proposal whose parent block is inside the transition window and not the last
block only with the empty builder commitment and metadata; the transition
block itself is exempt rather than the last block. -/
theorem transition_emptiness_amended :
    (∀ (env : RecvEnv) (st : ConsensusState) (p : QuorumProposal),
      env.epochsEnabled p.viewNumber = true →
      isEpochTransition p.blockHeader.blockNumber env.epochHeight = true →
      isTransitionBlock p.blockHeader.blockNumber env.epochHeight = false →
      RecvEvent.prelimValidated p ∈ (handleQuorumProposalRecv env st p).events →
      p.blockHeader.builderCommitment = env.emptyBuilderCommitment ∧
      p.blockHeader.metadata = env.emptyMetadata) ∧
    (∀ (env : PubEnv) (cm : CommitmentAndMetadata) (viewNumber : Nat)
      (parentQc : QuorumCertificate) (mq : Option QuorumCertificate)
      (msc : Option LightClientStateCert) (version parentBn : Nat) (m : PubMessage),
      env.versionRes = some version →
      env.epochsVersion ≤ version →
      viewNumber ≠ env.upgradeView →
      parentQc.data.blockNumber = some parentBn →
      isEpochTransition parentBn env.epochHeight = true →
      isLastBlock parentBn env.epochHeight = false →
      publishProposal env cm viewNumber parentQc mq msc = .ok (some m) →
      cm.builderCommitment = env.emptyBuilderCommitment ∧
      cm.metadata = env.emptyMetadata) := by
  constructor
  · intro env st p hmode hwin htr hmem
    have hok := recvPrelim_transitionBlock (recv_events_prelim hmem)
    unfold validateEpochTransitionBlock at hok
    rw [hmode, hwin, htr] at hok
    simp only [Bool.not_true, Bool.false_eq_true, if_false, Bool.not_false,
      if_true] at hok
    by_cases hc : env.emptyBuilderCommitment == p.blockHeader.builderCommitment &&
        env.emptyMetadata == p.blockHeader.metadata
    · rw [Bool.and_eq_true, beq_iff_eq, beq_iff_eq] at hc
      exact ⟨hc.1.symm, hc.2.symm⟩
    · rw [if_neg (by simpa using hc)] at hok
      simp at hok
  · intro env cm viewNumber parentQc mq msc version parentBn m hees hver hvw hpbn
      hwin hlast hpub
    unfold publishProposal at hpub
    by_cases hemp : cm.builderCommitment == env.emptyBuilderCommitment &&
        cm.metadata == env.emptyMetadata
    · rw [Bool.and_eq_true, beq_iff_eq, beq_iff_eq] at hemp
      exact hemp
    · cases hpc : env.parentCommit with
      | none => rw [hpc] at hpub; simp at hpub
      | some parentCommit =>
        by_cases hbv : (cm.blockView == viewNumber) = true
        · simp only [hpc, hees, hpbn, hbv, Bool.not_true, Bool.false_eq_true,
            if_false] at hpub
          rw [if_pos (by simp [hver, hvw])] at hpub
          rw [if_pos (by simp [hwin, hlast, hemp])] at hpub
          simp at hpub
        · simp only [hpc, hbv, Bool.not_false, if_true] at hpub
          simp at hpub

/-- Witness for C2 amended: the concrete publish inputs at parent height eight
succeed and the theorem yields the empty commitments. -/
theorem transition_emptiness_amended_witness :
    cmW.builderCommitment = pubEnvW.emptyBuilderCommitment ∧
    cmW.metadata = pubEnvW.emptyMetadata :=
  transition_emptiness_amended.2 pubEnvW cmW 9 parentQcW none none 5 8 msgW
    (by decide) (by decide) (by decide) (by decide) (by decide) (by decide)
    (by rfl)

/-! ## C4: vote eligibility -/

/-- C4: submit_vote emits a vote event only when the node has stake in the
current epoch or the leaf closes its epoch while the node has stake in the
next epoch; outside these cases it returns an error, so no vote event is
broadcast. -/
theorem submit_vote_eligibility (env : VoteEnv) (membership : VoteMembership)
    (leaf : VoteLeaf) (extendedVote : Bool) (epochHeight : Nat) :
    (∀ ev, submitVote env membership leaf extendedVote epochHeight = .ok ev →
      membership.hasStakeCurrent = true ∨
      (isLastBlockInEpoch leaf.height epochHeight = true ∧
        membership.nextEpoch = some true)) ∧
    (membership.hasStakeCurrent = false →
      ¬(isLastBlockInEpoch leaf.height epochHeight = true ∧
        membership.nextEpoch = some true) →
      ∃ e, submitVote env membership leaf extendedVote epochHeight = .error e) := by
  constructor
  · intro ev hok
    unfold submitVote at hok
    by_cases h1 : (leaf.withEpoch && isLastBlockInEpoch leaf.height epochHeight &&
        membership.nextEpoch == none) = true
    · rw [if_pos h1] at hok; simp at hok
    · rw [if_neg h1] at hok
      by_cases h2 : (!membership.hasStakeCurrent &&
          !(leaf.withEpoch && isLastBlockInEpoch leaf.height epochHeight &&
            membership.nextEpoch == some true)) = true
      · rw [if_pos h2] at hok; simp at hok
      · rw [Bool.and_eq_true, Bool.not_eq_true', Bool.not_eq_true'] at h2
        push_neg at h2
        by_cases hcur : membership.hasStakeCurrent = true
        · exact Or.inl hcur
        · right
          have hnext : leaf.withEpoch = true ∧
              isLastBlockInEpoch leaf.height epochHeight = true ∧
              membership.nextEpoch = some true := by
            have := h2 (by simpa using hcur)
            simpa using this
          exact ⟨hnext.2.1, hnext.2.2⟩
  · intro hcur hnext
    unfold submitVote
    by_cases h1 : (leaf.withEpoch && isLastBlockInEpoch leaf.height epochHeight &&
        membership.nextEpoch == none) = true
    · rw [if_pos h1]
      exact ⟨_, rfl⟩
    · rw [if_neg h1]
      rw [if_pos ?_]
      · exact ⟨_, rfl⟩
      · rw [Bool.and_eq_true, Bool.not_eq_true', Bool.not_eq_true']
        refine ⟨hcur, ?_⟩
        by_cases hX : (leaf.withEpoch && isLastBlockInEpoch leaf.height epochHeight &&
            membership.nextEpoch == some true) = true
        · rw [Bool.and_eq_true, Bool.and_eq_true] at hX
          exact absurd ⟨hX.1.2, by simpa using hX.2⟩ hnext
        · simpa using hX

/-- Witness for C4: the concrete vote with current-epoch stake succeeds and the
theorem yields the eligibility disjunction. -/
theorem submit_vote_eligibility_witness :
    voteMemW.hasStakeCurrent = true ∨
    (isLastBlockInEpoch voteLeafW.height 10 = true ∧ voteMemW.nextEpoch = some true) :=
  (submit_vote_eligibility voteEnvW voteMemW voteLeafW false 10).1
    .quorumVoteSend (by rfl)

/-! ## C5: DRB result verification -/

/-- C5: at the last block of an epoch verify_drb_result succeeds only when the
proposal carries a next DRB result, and for a staked node only when that result
equals the locally stored result for the next epoch; off the last block it
succeeds without any check. -/
theorem verify_drb_result_spec (ts : DrbTaskState) (p : QuorumProposal) :
    (isLastBlockInEpoch p.blockHeader.blockNumber ts.epochHeight = true →
      verifyDrbResult ts p = .ok () →
      ∃ r, p.nextDrbResult = some r ∧
        ∀ e, optionEpochFromBlockNumber ts.epochsEnabled p.blockHeader.blockNumber
            ts.epochHeight = some e →
          ts.membershipHasStake (some e) = some true →
          lookupNat ts.drbResults (e + 1) = some r) ∧
    (isLastBlockInEpoch p.blockHeader.blockNumber ts.epochHeight = false →
      verifyDrbResult ts p = .ok ()) := by
  constructor
  · intro hlast hok
    have hne : (ts.epochHeight == 0) = false := by
      cases heh : ts.epochHeight == 0
      · rfl
      · rw [beq_iff_eq] at heh
        simp [isLastBlockInEpoch, isLastBlock, heh] at hlast
    unfold verifyDrbResult at hok
    rw [if_neg (by simp [hlast, hne])] at hok
    cases hdr : p.nextDrbResult with
    | none => rw [hdr] at hok; simp at hok
    | some r =>
      refine ⟨r, rfl, ?_⟩
      intro e he hstake
      simp only [hdr, he, hstake, if_true] at hok
      cases hlk : lookupNat ts.drbResults (e + 1) with
      | none => simp [hlk] at hok
      | some computed =>
        simp only [hlk] at hok
        by_cases heq2 : (r == computed) = true
        · rw [beq_iff_eq] at heq2; rw [heq2]
        · simp [heq2] at hok
  · intro hlast
    unfold verifyDrbResult
    rw [hlast]
    simp

/-- Witness for C5: on the concrete last-block proposal the theorem produces
the carried DRB result and its agreement with the stored table. -/
theorem verify_drb_result_spec_witness :
    ∃ r, pDrbW.nextDrbResult = some r ∧
      ∀ e, optionEpochFromBlockNumber drbTsW.epochsEnabled
          pDrbW.blockHeader.blockNumber drbTsW.epochHeight = some e →
        drbTsW.membershipHasStake (some e) = some true →
        lookupNat drbTsW.drbResults (e + 1) = some r :=
  (verify_drb_result_spec drbTsW pDrbW).1 (by decide) (by rfl)

/-! ## C9: VID share validation -/

/-- C9: for a fresh view, the VidShareRecv branch broadcasts VidShareValidated
exactly when the sender signature validates, the sender is a DA member or the
view leader, the share verifies against the target-epoch total weight, and the
recipient key is our own. -/
theorem vid_share_validated_iff (env : VidEnv) (sender : Nat) (share : VidShare)
    (hview : env.latestVotedView < share.viewNumber) :
    handleVidShareRecv env sender share = .ok () ↔
      (env.sigValid = true ∧ vidSenderEligible env sender share = true ∧
       vidShareVerifies env share = true ∧ share.recipientKey = env.publicKey) := by
  unfold handleVidShareRecv vidSenderEligible vidShareVerifies
  rw [if_neg (by simpa using hview)]
  by_cases hsig : env.sigValid = true
  · rw [if_neg (by simp [hsig])]
    cases hm : env.membershipFor share.epoch with
    | none => simp [hsig]
    | some m =>
      cases htm : env.membershipFor share.targetEpoch with
      | none =>
        by_cases hda : m.senderIsDaMember = true
        · simp [hsig, hda, exceptSeq]
        · cases hl : m.leaderResult with
          | none => simp [hsig, hda, hl, exceptSeq]
          | some leaderKey =>
            by_cases hlk : (leaderKey == sender) = true
            · simp [hsig, hda, hl, hlk, exceptSeq]
            · simp [hsig, hda, hl, hlk, exceptSeq]
      | some tm =>
        by_cases hvs : env.verifyShare tm.totalWeight = true
        · by_cases hrk : (share.recipientKey == env.publicKey) = true
          · by_cases hda : m.senderIsDaMember = true
            · simp [hsig, hda, hvs, hrk, exceptSeq, beq_iff_eq.mp hrk]
            · cases hl : m.leaderResult with
              | none => simp [hsig, hda, hl, exceptSeq]
              | some leaderKey =>
                by_cases hlk : (leaderKey == sender) = true
                · simp [hsig, hda, hl, hlk, exceptSeq, beq_iff_eq.mp hrk,
                    beq_iff_eq.mp hlk]
                · simp [hsig, hda, hl, hlk, exceptSeq]
          · by_cases hda : m.senderIsDaMember = true
            · simp [hsig, hda, hvs, hrk, exceptSeq]
              intro hrk2
              simp [hrk2] at hrk
            · cases hl : m.leaderResult with
              | none => simp [hsig, hda, hl, exceptSeq]
              | some leaderKey =>
                by_cases hlk : (leaderKey == sender) = true
                · simp [hsig, hda, hl, hlk, hvs, exceptSeq]
                · simp [hsig, hda, hl, hlk, exceptSeq]
        · by_cases hda : m.senderIsDaMember = true
          · simp [hsig, hda, hvs, exceptSeq]
          · cases hl : m.leaderResult with
            | none => simp [hsig, hda, hl, exceptSeq]
            | some leaderKey =>
              by_cases hlk : (leaderKey == sender) = true
              · simp [hsig, hda, hl, hlk, hvs, exceptSeq]
              · simp [hsig, hda, hl, hlk, exceptSeq]
  · rw [if_pos (by simpa using hsig)]
    simp [hsig]

/-- Witness for C9: the concrete DA-member share addressed to our key is
validated. -/
theorem vid_share_validated_iff_witness :
    handleVidShareRecv vidEnvW 2 vidShareW = .ok () :=
  (vid_share_validated_iff vidEnvW 2 vidShareW (by decide)).mpr
    ⟨by decide, by decide, by decide, by decide⟩

/-! ## C3: highest-QC selection -/

/-- View of the best pair after a conditional replacement is the maximum of
the two views. -/
theorem ite_view_max (best : QuorumCertificate × Option LightClientStateCert)
    (qc : QuorumCertificate) (sc : Option LightClientStateCert) :
    (if best.1.viewNumber < qc.viewNumber then (qc, sc) else best).1.viewNumber =
      max best.1.viewNumber qc.viewNumber := by
  split
  · rename_i h
    exact (Nat.max_eq_right (Nat.le_of_lt h)).symm
  · rename_i h
    exact (Nat.max_eq_left (Nat.le_of_not_lt h)).symm

/-- View of the running best after one drain step: unchanged for an event with
no valid contribution, otherwise the maximum with the contributed view. -/
theorem drainStep_view (env : WaitEnv)
    (best : QuorumCertificate × Option LightClientStateCert) (e : WaitEvent) :
    (drainStep env best e).1.viewNumber =
      match validArrivalView env e with
      | none => best.1.viewNumber
      | some v => max best.1.viewNumber v := by
  unfold drainStep validArrivalView
  cases hq : waitEventQc e with
  | none => rfl
  | some t =>
    obtain ⟨qc, nq, msc⟩ := t
    by_cases h1 : env.qcValid qc nq = true
    · by_cases h2 : qcIsEpochRoot qc env.epochHeight = true
      · cases msc with
        | none => simp [h1, h2]
        | some sc =>
          by_cases h3 : (env.certValid sc &&
              checkQcStateCertCorrespondence qc sc env.epochHeight) = true
          · simp [h1, h2, h3, ite_view_max]
          · simp [h1, h2, h3]
      · simp [h1, h2, ite_view_max]
    · simp [h1]

/-- View of the drained best equals the fold of the maxima of the valid
contributions over the initial view. -/
theorem drain_fold_view (env : WaitEnv) (l : List WaitEvent) :
    ∀ best : QuorumCertificate × Option LightClientStateCert,
    (l.foldl (drainStep env) best).1.viewNumber =
      (l.filterMap (validArrivalView env)).foldl max best.1.viewNumber := by
  induction l with
  | nil => intro best; rfl
  | cons e rest ih =>
    intro best
    rw [List.foldl_cons, ih (drainStep env best e)]
    have hd := drainStep_view env best e
    cases hv : validArrivalView env e with
    | none =>
      rw [hv] at hd
      rw [hd]
      simp only [List.filterMap_cons, hv]
    | some v =>
      rw [hv] at hd
      rw [hd]
      simp only [List.filterMap_cons, hv, List.foldl_cons]

/-- Initial value is below the fold of maxima. -/
theorem le_foldl_max (l : List Nat) : ∀ b : Nat, b ≤ l.foldl max b := by
  induction l with
  | nil => intro b; exact Nat.le_refl b
  | cons v rest ih =>
    intro b
    rw [List.foldl_cons]
    exact Nat.le_trans (Nat.le_max_left b v) (ih (max b v))

/-- One drain step keeps the best unchanged when the contributed view does not
improve on it. -/
theorem drainStep_no_improve (env : WaitEnv)
    (best : QuorumCertificate × Option LightClientStateCert) (e : WaitEvent)
    (h : ∀ v, validArrivalView env e = some v → v ≤ best.1.viewNumber) :
    drainStep env best e = best := by
  unfold drainStep
  unfold validArrivalView at h
  cases hq : waitEventQc e with
  | none => rfl
  | some t =>
    obtain ⟨qc, nq, msc⟩ := t
    rw [hq] at h
    by_cases h1 : env.qcValid qc nq = true
    · by_cases h2 : qcIsEpochRoot qc env.epochHeight = true
      · cases msc with
        | none => simp [h1, h2]
        | some sc =>
          by_cases h3 : (env.certValid sc &&
              checkQcStateCertCorrespondence qc sc env.epochHeight) = true
          · have hv := h qc.viewNumber (by simp [h1, h2, h3])
            simp [h1, h2, h3, Nat.not_lt.mpr hv]
          · simp [h1, h2, h3]
      · have hv := h qc.viewNumber (by simp [h1, h2])
        simp [h1, h2, Nat.not_lt.mpr hv]
    · simp [h1]

/-- Whole drain keeps the best unchanged when no valid contribution improves
on it. -/
theorem drain_fold_no_improve (env : WaitEnv) (l : List WaitEvent) :
    ∀ best, (∀ v ∈ l.filterMap (validArrivalView env), v ≤ best.1.viewNumber) →
    l.foldl (drainStep env) best = best := by
  induction l with
  | nil => intro best _; rfl
  | cons e rest ih =>
    intro best h
    rw [List.foldl_cons]
    have he : drainStep env best e = best := by
      apply drainStep_no_improve
      intro v hv
      exact h v (List.mem_filterMap.mpr ⟨e, List.mem_cons_self e rest, hv⟩)
    rw [he]
    apply ih
    intro v hv
    obtain ⟨a, ha, hfa⟩ := List.mem_filterMap.mp hv
    exact h v (List.mem_filterMap.mpr ⟨a, List.mem_cons_of_mem e ha, hfa⟩)

/-- C3 counterexample: with an empty drain, two valid QCs at views five and
nine arriving in that order during the timed phase, and a local high QC at
view three, wait_for_highest_qc returns the QC at view five although the
maximum over the local high QC and all validated arrivals is nine. -/
theorem wait_highest_qc_counterexample :
    (waitForHighestQc wEnvX qcLocalX none [] tailX).1.viewNumber = 5 ∧
    (allValidArrivalViews wEnvX tailX).foldl max qcLocalX.viewNumber = 9 ∧
    (5 : Nat) ≠ 9 := by decide

/-- C3 amended: the returned QC view equals the maximum over the local high QC
of the views actually considered, namely every validated QC drained at wait
start plus the first validated arrival of the timed phase (later arrivals, and
every arrival after a failed epoch-root state-cert validation, are not
considered); the result never falls below the local high QC, and when no
considered view improves on it the local high QC itself is returned. -/
theorem wait_highest_qc_amended (env : WaitEnv) (highQc : QuorumCertificate)
    (csc : Option LightClientStateCert) (drained tail : List WaitEvent) :
    (waitForHighestQc env highQc csc drained tail).1.viewNumber =
      (consideredViews env drained tail).foldl max highQc.viewNumber ∧
    highQc.viewNumber ≤ (waitForHighestQc env highQc csc drained tail).1.viewNumber ∧
    ((∀ v ∈ consideredViews env drained tail, v ≤ highQc.viewNumber) →
      (waitForHighestQc env highQc csc drained tail).1 = highQc) := by
  have hmain : (waitForHighestQc env highQc csc drained tail).1.viewNumber =
      (consideredViews env drained tail).foldl max highQc.viewNumber := by
    unfold waitForHighestQc timedPhase consideredViews
    have hfold := drain_fold_view env drained
      (highQc, if qcIsEpochRoot highQc env.epochHeight then csc else none)
    cases hscan : waitForQcEventScan env tail with
    | none =>
      simp only [hscan, List.append_nil]
      exact hfold
    | some r =>
      cases r with
      | none =>
        simp only [hscan, List.append_nil]
        exact hfold
      | some pair =>
        obtain ⟨qc, msc⟩ := pair
        simp only [hscan]
        rw [ite_view_max, hfold, List.foldl_append, List.foldl_cons, List.foldl_nil]
  refine ⟨hmain, ?_, ?_⟩
  · rw [hmain]
    exact le_foldl_max (consideredViews env drained tail) highQc.viewNumber
  · intro hall
    have hdrained : ∀ v ∈ drained.filterMap (validArrivalView env),
        v ≤ highQc.viewNumber := by
      intro v hv
      exact hall v (by unfold consideredViews; exact List.mem_append_left _ hv)
    have hfoldid := drain_fold_no_improve env drained
      (highQc, if qcIsEpochRoot highQc env.epochHeight then csc else none) hdrained
    unfold waitForHighestQc timedPhase
    cases hscan : waitForQcEventScan env tail with
    | none =>
      simp only [hscan]
      rw [hfoldid]
    | some r =>
      cases r with
      | none =>
        simp only [hscan]
        rw [hfoldid]
      | some pair =>
        obtain ⟨qc, msc⟩ := pair
        have hqcle : qc.viewNumber ≤ highQc.viewNumber := by
          apply hall
          unfold consideredViews
          rw [hscan]
          exact List.mem_append_right _ (List.mem_singleton.mpr rfl)
        simp only [hscan]
        rw [hfoldid]
        rw [if_neg (Nat.not_lt.mpr hqcle)]

/-- Witness for C3 amended: with no arrivals the local high QC is returned. -/
theorem wait_highest_qc_amended_witness :
    (waitForHighestQc wEnvX qcLocalX none [] []).1 = qcLocalX :=
  (wait_highest_qc_amended wEnvX qcLocalX none [] []).2.2 (by decide)

end Spec2Proof
